import Mathlib

/-!
Shallow embedding of `fooocusapi/routes/generate_v1.py` (Fooocus-API).

The module is a FastAPI routing layer: seven POST endpoints registered on a
router carrying an API-key dependency.  The four generation endpoints share
an accept-override idiom and delegate to `call_worker`; the two tool
endpoints delegate to interrogators and to `generate_mask_from_image`; the
stop endpoint delegates to `process_stop` through `stop_worker`.

External collaborators (`call_worker`, the interrogators,
`generate_mask_from_image`, `HWC3`, `read_input_image`) are black boxes in
this module; here they are parameters of the handler functions, so every
theorem quantifies over them.  Effectful delegation (`process_stop`) is
recorded as an explicit effect trace.
-/

namespace FooocusAPI

/-- Modelled from the spec: request/response shapes are pass-through DTOs
defined elsewhere (`fooocusapi.models.common.requests.CommonRequest`);
the text-to-image request body is opaque to this routing layer. -/
structure Text2ImgRequest where
  payload : String
deriving DecidableEq

/-- Modelled from the spec: pass-through DTO
(`fooocusapi.models.requests_v1.ImgUpscaleOrVaryRequest`), opaque here. -/
structure ImgUpscaleOrVaryRequest where
  payload : String
deriving DecidableEq

/-- Modelled from the spec: pass-through DTO
(`fooocusapi.models.requests_v1.ImgInpaintOrOutpaintRequest`), opaque here. -/
structure ImgInpaintOrOutpaintRequest where
  payload : String
deriving DecidableEq

/-- Modelled from the spec: pass-through DTO
(`fooocusapi.models.requests_v1.ImgPromptRequest`), opaque here. -/
structure ImgPromptRequest where
  payload : String
deriving DecidableEq

/-- Modelled from the spec: an uploaded multipart file, carrying a filename
and raw byte content (`fastapi.UploadFile`; `image.filename`,
`await image.read()`). -/
structure UploadFile where
  filename : String
  content : List Nat
deriving DecidableEq

/-- Modelled from the spec: the image-type selector of the describe-image
endpoint (`fooocusapi.models.common.base.DescribeImageType`), documented as
Photo or Anime. -/
inductive DescribeImageType where
  | photo
  | anime
deriving DecidableEq

/-- Modelled from the spec: the describe-image response DTO, holding the
string result of the interrogator. -/
structure DescribeImageResponse where
  describe : String
deriving DecidableEq

/-- Modelled from the spec: the stop-endpoint response DTO with a message
field. -/
structure StopResponse where
  msg : String
deriving DecidableEq

/-- Values stored in the `extras` dictionary of the generate-mask handler:
the source stores strings (cloth category, SAM settings) and floats (the
two thresholds); the float type is an opaque parameter `F` since the layer
never computes with it. -/
inductive ExtraVal (F : Type) where
  | str (s : String)
  | num (x : F)
deriving DecidableEq

/-- Values of the generate-mask response dictionary: the filename string and
the opaque mask returned by the delegated mask generator. -/
inductive MaskRespVal (Mask : Type) where
  | str (s : String)
  | mask (m : Mask)
deriving DecidableEq

/-- Effects this routing layer can trigger in collaborator modules; the
only one is interrupting the worker process. -/
inductive Effect where
  | processStop
deriving DecidableEq, BEq

/-- Modelled from the spec: `process_stop` is the black-box worker
interrupt (`fooocusapi.worker.process_stop`); in the embedding an
invocation is recorded as one effect in a trace. -/
def process_stop : List Effect := [Effect.processStop]

/-- Source `stop_worker`: interrupt worker process by calling
`process_stop()`. -/
def stop_worker : List Effect := process_stop

/-- Source `text2img_generation`: if the accept query parameter is not None
and has positive length it replaces the Accept header value, then the
handler returns `call_worker(req, accept)`. -/
def text2img_generation {α : Type} (call_worker : Text2ImgRequest → Option String → α)
    (req : Text2ImgRequest) (accept : Option String) (accept_query : Option String) : α :=
  let accept :=
    match accept_query with
    | some q => if 0 < q.length then some q else accept
    | none => accept
  call_worker req accept

/-- Source `img_upscale_or_vary`: same accept override, then
`call_worker(req, accept)`; the `input_image` upload is bound by the form
parser and not used in the handler body. -/
def img_upscale_or_vary {α : Type} (call_worker : ImgUpscaleOrVaryRequest → Option String → α)
    (input_image : UploadFile) (req : ImgUpscaleOrVaryRequest)
    (accept : Option String) (accept_query : Option String) : α :=
  let accept :=
    match accept_query with
    | some q => if 0 < q.length then some q else accept
    | none => accept
  call_worker req accept

/-- Source `img_inpaint_or_outpaint`: same accept override, then
`call_worker(req, accept)`. -/
def img_inpaint_or_outpaint {α : Type} (call_worker : ImgInpaintOrOutpaintRequest → Option String → α)
    (input_image : UploadFile) (req : ImgInpaintOrOutpaintRequest)
    (accept : Option String) (accept_query : Option String) : α :=
  let accept :=
    match accept_query with
    | some q => if 0 < q.length then some q else accept
    | none => accept
  call_worker req accept

/-- Source `img_prompt`: same accept override, then
`call_worker(req, accept)`; `cn_img1` is an optional upload not used in the
handler body. -/
def img_prompt {α : Type} (call_worker : ImgPromptRequest → Option String → α)
    (cn_img1 : Option UploadFile) (req : ImgPromptRequest)
    (accept : Option String) (accept_query : Option String) : α :=
  let accept :=
    match accept_query with
    | some q => if 0 < q.length then some q else accept
    | none => accept
  call_worker req accept

/-- The accept value the four generation handlers hand to `call_worker`:
the query parameter when it is supplied with positive length, otherwise the
header value.  Stated separately so theorems can name it. -/
def override_accept (accept : Option String) (accept_query : Option String) : Option String :=
  match accept_query with
  | some q => if 0 < q.length then some q else accept
  | none => accept

/-- Source `describe_image`: pick the photo interrogator when
`image_type == DescribeImageType.photo`, else the anime tagger; apply it to
`HWC3(read_input_image(image))` and wrap the result. -/
def describe_image {Img : Type}
    (default_interrogator_photo : Img → String)
    (default_interrogator_anime : Img → String)
    (HWC3 : Img → Img)
    (read_input_image : UploadFile → Img)
    (image : UploadFile) (image_type : DescribeImageType) : DescribeImageResponse :=
  let interrogator :=
    if image_type = DescribeImageType.photo then default_interrogator_photo
    else default_interrogator_anime
  let img := HWC3 (read_input_image image)
  let result := interrogator img
  { describe := result }

/-- The `extras` dictionary built by `generate_mask_route`: the cloth
category under `u2net_cloth_seg`, the five SAM settings under `sam`, empty
otherwise (insertion-ordered association list). -/
def mask_extras {F : Type} (mask_model : String) (cloth_category : String)
    (sam_prompt_text : String) (sam_model : String) (sam_quant : String)
    (box_threshold : F) (text_threshold : F) : List (String × ExtraVal F) :=
  if mask_model = "u2net_cloth_seg" then
    [("cloth_category", ExtraVal.str cloth_category)]
  else if mask_model = "sam" then
    [("sam_prompt_text", ExtraVal.str sam_prompt_text),
     ("sam_model", ExtraVal.str sam_model),
     ("sam_quant", ExtraVal.str sam_quant),
     ("box_threshold", ExtraVal.num box_threshold),
     ("text_threshold", ExtraVal.num text_threshold)]
  else []

/-- Source `generate_mask_route`: read the bytes of the upload, build `extras`
from the mask model, call `generate_mask_from_image(image_data, mask_model,
extras)`, and return the dictionary with the filename and the mask. -/
def generate_mask_route {F Mask : Type}
    (generate_mask_from_image : List Nat → String → List (String × ExtraVal F) → Mask)
    (image : UploadFile) (mask_model : String) (cloth_category : String)
    (sam_prompt_text : String) (sam_model : String) (sam_quant : String)
    (box_threshold : F) (text_threshold : F) : List (String × MaskRespVal Mask) :=
  let image_data := image.content
  let extras := mask_extras mask_model cloth_category sam_prompt_text sam_model sam_quant
    box_threshold text_threshold
  let mask := generate_mask_from_image image_data mask_model extras
  [("filename", MaskRespVal.str image.filename), ("mask", MaskRespVal.mask mask)]

/-- Source `stop`: call `stop_worker()` and return
`StopResponse(msg="success")`; the first component is the effect trace of
the delegated calls. -/
def stop : List Effect × StopResponse :=
  (stop_worker, { msg := "success" })

/-- Dependencies a router can carry; this module only ever attaches the
API-key check. -/
inductive Dependency where
  | api_key_auth
deriving DecidableEq

/-- A registered route: HTTP method, path, and the name of the Python
handler bound to it. -/
structure Route where
  method : String
  path : String
  handler : String
deriving DecidableEq

/-- A router: its dependency list and the routes registered on it, in
registration order. -/
structure APIRouter where
  dependencies : List Dependency
  routes : List Route
deriving DecidableEq

/-- Registration of a POST route on a router, as the `@secure_router.post`
decorator does. -/
def APIRouter.post (r : APIRouter) (path : String) (handler : String) : APIRouter :=
  { r with routes := r.routes ++ [{ method := "POST", path := path, handler := handler }] }

/-- Source `secure_router`: created with the API-key dependency, then the
seven POST routes of the module are registered on it in source order. -/
def secure_router : APIRouter :=
  APIRouter.mk [Dependency.api_key_auth] []
    |>.post "/v1/generation/text-to-image" "text2img_generation"
    |>.post "/v1/generation/image-upscale-vary" "img_upscale_or_vary"
    |>.post "/v1/generation/image-inpaint-outpaint" "img_inpaint_or_outpaint"
    |>.post "/v1/generation/image-prompt" "img_prompt"
    |>.post "/v1/tools/describe-image" "describe_image"
    |>.post "/v1/tools/generate-mask" "generate_mask_route"
    |>.post "/v1/generation/stop" "stop"

/-- C1: each of the four generation handlers forwards the parsed request
object to `call_worker` unchanged (the request argument of the delegated
call is the parsed request itself) and the return value of the handler is
exactly the value returned by `call_worker`. -/
theorem generation_handlers_forward_request_and_return_worker_value :
    (∀ (α : Type) (cw : Text2ImgRequest → Option String → α) req a q,
      ∃ acc, text2img_generation cw req a q = cw req acc) ∧
    (∀ (α : Type) (cw : ImgUpscaleOrVaryRequest → Option String → α) input_image req a q,
      ∃ acc, img_upscale_or_vary cw input_image req a q = cw req acc) ∧
    (∀ (α : Type) (cw : ImgInpaintOrOutpaintRequest → Option String → α) input_image req a q,
      ∃ acc, img_inpaint_or_outpaint cw input_image req a q = cw req acc) ∧
    (∀ (α : Type) (cw : ImgPromptRequest → Option String → α) cn_img1 req a q,
      ∃ acc, img_prompt cw cn_img1 req a q = cw req acc) := by
  refine ⟨?_, ?_, ?_, ?_⟩
  · intro α cw req a q; exact ⟨override_accept a q, rfl⟩
  · intro α cw i req a q; exact ⟨override_accept a q, rfl⟩
  · intro α cw i req a q; exact ⟨override_accept a q, rfl⟩
  · intro α cw i req a q; exact ⟨override_accept a q, rfl⟩

/-- C2 counterexample: with the `accept` query parameter supplied as the
empty string and the Accept header `image/png`, the accept value passed to
`call_worker` is the header value, not the supplied query parameter, so the
claim that a supplied query parameter is always selected is false. -/
theorem accept_query_supplied_empty_is_not_selected :
    text2img_generation Prod.mk { payload := "p" } (some "image/png") (some "")
      = ({ payload := "p" }, some "image/png") ∧
    (some "image/png" : Option String) ≠ some "" :=
  ⟨rfl, by decide⟩

/-- C2 amended: on every generation endpoint the accept value passed to
`call_worker` equals the `accept` query parameter when that parameter is
supplied with positive length, and otherwise (parameter absent or empty)
equals the Accept header value. -/
theorem accept_selected_from_query_when_nonempty_else_header :
    (∀ (req : Text2ImgRequest) (a : Option String) (s : String),
      (0 < s.length → text2img_generation Prod.mk req a (some s) = (req, some s)) ∧
      (s.length = 0 → text2img_generation Prod.mk req a (some s) = (req, a)) ∧
      text2img_generation Prod.mk req a none = (req, a)) ∧
    (∀ (i : UploadFile) (req : ImgUpscaleOrVaryRequest) (a : Option String) (s : String),
      (0 < s.length → img_upscale_or_vary Prod.mk i req a (some s) = (req, some s)) ∧
      (s.length = 0 → img_upscale_or_vary Prod.mk i req a (some s) = (req, a)) ∧
      img_upscale_or_vary Prod.mk i req a none = (req, a)) ∧
    (∀ (i : UploadFile) (req : ImgInpaintOrOutpaintRequest) (a : Option String) (s : String),
      (0 < s.length → img_inpaint_or_outpaint Prod.mk i req a (some s) = (req, some s)) ∧
      (s.length = 0 → img_inpaint_or_outpaint Prod.mk i req a (some s) = (req, a)) ∧
      img_inpaint_or_outpaint Prod.mk i req a none = (req, a)) ∧
    (∀ (i : Option UploadFile) (req : ImgPromptRequest) (a : Option String) (s : String),
      (0 < s.length → img_prompt Prod.mk i req a (some s) = (req, some s)) ∧
      (s.length = 0 → img_prompt Prod.mk i req a (some s) = (req, a)) ∧
      img_prompt Prod.mk i req a none = (req, a)) := by
  refine ⟨?_, ?_, ?_, ?_⟩ <;>
    first
      | (intro req a s
         refine ⟨fun h => ?_, fun h => ?_, rfl⟩
         · simp [text2img_generation, h]
         · simp [text2img_generation, h])
      | (intro i req a s
         refine ⟨fun h => ?_, fun h => ?_, rfl⟩ <;>
           simp [img_upscale_or_vary, img_inpaint_or_outpaint, img_prompt, h])

/-- C2 amended, witness: concrete instances where the nonempty query
parameter is selected and where the empty query parameter is not. -/
theorem accept_selected_witness :
    text2img_generation Prod.mk { payload := "p" } (some "a") (some "image/png")
      = ({ payload := "p" }, some "image/png") ∧
    text2img_generation Prod.mk { payload := "p" } (some "a") (some "")
      = ({ payload := "p" }, some "a") :=
  ⟨(accept_selected_from_query_when_nonempty_else_header.1
      { payload := "p" } (some "a") "image/png").1 (by decide),
   ((accept_selected_from_query_when_nonempty_else_header.1
      { payload := "p" } (some "a") "").2).1 (by decide)⟩

/-- C3: every route of this module is registered on `secure_router`, whose
dependency list contains `api_key_auth`, so no route in the module is
reachable without passing the API-key check. -/
theorem all_routes_behind_api_key_auth :
    secure_router.dependencies = [Dependency.api_key_auth] ∧
    ∀ r ∈ secure_router.routes, Dependency.api_key_auth ∈ secure_router.dependencies := by
  exact ⟨rfl, fun r _ => by decide⟩

/-- C3 witness: the stop route is registered on `secure_router` and the
dependency list of its router contains the API-key check. -/
theorem all_routes_behind_api_key_auth_witness :
    Dependency.api_key_auth ∈ secure_router.dependencies :=
  all_routes_behind_api_key_auth.2
    { method := "POST", path := "/v1/generation/stop", handler := "stop" } (by decide)

/-- C6: the stop endpoint invokes `process_stop` exactly once, via
`stop_worker`, and returns a `StopResponse` whose `msg` field is
`success`. -/
theorem stop_invokes_process_stop_once_and_succeeds :
    stop.1 = stop_worker ∧ stop_worker = process_stop ∧
    stop.1.count Effect.processStop = 1 ∧ stop.2.msg = "success" :=
  ⟨rfl, rfl, rfl, rfl⟩

/-- C7: the module registers exactly seven POST routes, with exactly the
seven documented paths, in source order, and no other routes. -/
theorem module_exposes_exactly_seven_post_routes :
    secure_router.routes.map (fun r => (r.method, r.path)) =
      [("POST", "/v1/generation/text-to-image"),
       ("POST", "/v1/generation/image-upscale-vary"),
       ("POST", "/v1/generation/image-inpaint-outpaint"),
       ("POST", "/v1/generation/image-prompt"),
       ("POST", "/v1/tools/describe-image"),
       ("POST", "/v1/tools/generate-mask"),
       ("POST", "/v1/generation/stop")] := by
  rfl

/-- C4: describe-image dispatches to the photo interrogator exactly when
`image_type` is `photo` and to the anime tagger for every other image type,
and the `describe` field of the response is the chosen interrogator applied to
`HWC3 (read_input_image image)`. -/
theorem describe_image_dispatch_and_result :
    ∀ (Img : Type) (photoI animeI : Img → String) (hwc3 : Img → Img)
      (read : UploadFile → Img) (image : UploadFile) (t : DescribeImageType),
      describe_image photoI animeI hwc3 read image t =
        { describe := (if t = DescribeImageType.photo then photoI else animeI)
            (hwc3 (read image)) } := by
  intro Img photoI animeI hwc3 read image t
  cases t <;> rfl

/-- C5: the `extras` dictionary passed to `generate_mask_from_image` has
exactly the key `cloth_category` for `u2net_cloth_seg`, exactly the five
SAM keys for `sam`, and is empty for every other mask model; and the
response dictionary has exactly the keys `filename` and `mask`. -/
theorem generate_mask_extras_keys_and_response_keys :
    ∀ (F Mask : Type)
      (gmfi : List Nat → String → List (String × ExtraVal F) → Mask)
      (image : UploadFile) (mask_model cloth_category spt sm sq : String)
      (bt tt : F),
      (mask_extras mask_model cloth_category spt sm sq bt tt).map Prod.fst =
        (if mask_model = "u2net_cloth_seg" then ["cloth_category"]
         else if mask_model = "sam" then
           ["sam_prompt_text", "sam_model", "sam_quant", "box_threshold", "text_threshold"]
         else []) ∧
      (generate_mask_route gmfi image mask_model cloth_category spt sm sq bt tt).map Prod.fst =
        ["filename", "mask"] := by
  intro F Mask gmfi image mask_model cloth_category spt sm sq bt tt
  refine ⟨?_, rfl⟩
  unfold mask_extras
  split
  · rfl
  · split <;> rfl

/-- C8: the routing layer introduces no outcome of its own: each generation
handler returns exactly the delegated `call_worker` result at the
forwarded request and the resolved accept value, the describe-image result
wraps exactly the delegated interrogator result, and the generate-mask
response is built exactly from the upload and the delegated mask result —
no handler has an error branch of its own. -/
theorem handlers_produce_only_delegated_outcomes :
    (∀ (α : Type) (cw : Text2ImgRequest → Option String → α) req a q,
      text2img_generation cw req a q = cw req (override_accept a q)) ∧
    (∀ (α : Type) (cw : ImgUpscaleOrVaryRequest → Option String → α) i req a q,
      img_upscale_or_vary cw i req a q = cw req (override_accept a q)) ∧
    (∀ (α : Type) (cw : ImgInpaintOrOutpaintRequest → Option String → α) i req a q,
      img_inpaint_or_outpaint cw i req a q = cw req (override_accept a q)) ∧
    (∀ (α : Type) (cw : ImgPromptRequest → Option String → α) i req a q,
      img_prompt cw i req a q = cw req (override_accept a q)) ∧
    (∀ (Img : Type) (photoI animeI : Img → String) (hwc3 : Img → Img)
      (read : UploadFile → Img) (image : UploadFile) (t : DescribeImageType),
      ∃ r : String, describe_image photoI animeI hwc3 read image t = { describe := r }) ∧
    (∀ (F Mask : Type) (gmfi : List Nat → String → List (String × ExtraVal F) → Mask)
      (image : UploadFile) (mm cc spt sm sq : String) (bt tt : F),
      generate_mask_route gmfi image mm cc spt sm sq bt tt =
        [("filename", MaskRespVal.str image.filename),
         ("mask", MaskRespVal.mask (gmfi image.content mm
            (mask_extras mm cc spt sm sq bt tt)))]) := by
  refine ⟨fun α cw req a q => rfl, fun α cw i req a q => rfl,
    fun α cw i req a q => rfl, fun α cw i req a q => rfl,
    ?_, fun F Mask gmfi image mm cc spt sm sq bt tt => rfl⟩
  intro Img photoI animeI hwc3 read image t
  exact ⟨_, rfl⟩

/-- C9: on every generation endpoint the `accept` query parameter overrides
the Accept header only when it is non-None with positive length; when the
query parameter is the empty string, the header value (possibly None) is
passed to `call_worker` unchanged. -/
theorem empty_accept_query_passes_header_unchanged :
    (∀ (req : Text2ImgRequest) (a : Option String),
      text2img_generation Prod.mk req a (some "") = (req, a) ∧
      ∀ q, text2img_generation Prod.mk req a q ≠ (req, a) →
        ∃ s, q = some s ∧ 0 < s.length) ∧
    (∀ (i : UploadFile) (req : ImgUpscaleOrVaryRequest) (a : Option String),
      img_upscale_or_vary Prod.mk i req a (some "") = (req, a) ∧
      ∀ q, img_upscale_or_vary Prod.mk i req a q ≠ (req, a) →
        ∃ s, q = some s ∧ 0 < s.length) ∧
    (∀ (i : UploadFile) (req : ImgInpaintOrOutpaintRequest) (a : Option String),
      img_inpaint_or_outpaint Prod.mk i req a (some "") = (req, a) ∧
      ∀ q, img_inpaint_or_outpaint Prod.mk i req a q ≠ (req, a) →
        ∃ s, q = some s ∧ 0 < s.length) ∧
    (∀ (i : Option UploadFile) (req : ImgPromptRequest) (a : Option String),
      img_prompt Prod.mk i req a (some "") = (req, a) ∧
      ∀ q, img_prompt Prod.mk i req a q ≠ (req, a) →
        ∃ s, q = some s ∧ 0 < s.length) := by
  refine ⟨?_, ?_, ?_, ?_⟩ <;>
    first
      | (intro req a
         refine ⟨rfl, fun q hq => ?_⟩
         match q with
         | none => exact absurd rfl hq
         | some s =>
           by_cases hs : 0 < s.length
           · exact ⟨s, rfl, hs⟩
           · exact absurd (by simp [text2img_generation, hs]) hq)
      | (intro i req a
         refine ⟨rfl, fun q hq => ?_⟩
         match q with
         | none => exact absurd rfl hq
         | some s =>
           by_cases hs : 0 < s.length
           · exact ⟨s, rfl, hs⟩
           · exact absurd
               (by simp [img_upscale_or_vary, img_inpaint_or_outpaint, img_prompt, hs]) hq)

/-- C9 witness: at a concrete request the empty query parameter leaves the
header in place, and a concrete overriding invocation certifies the
only-when condition. -/
theorem empty_accept_query_witness :
    text2img_generation Prod.mk { payload := "p" } (some "hdr") (some "")
      = ({ payload := "p" }, some "hdr") ∧
    ∃ s, (some "image/png" : Option String) = some s ∧ 0 < s.length :=
  ⟨(empty_accept_query_passes_header_unchanged.1 { payload := "p" } (some "hdr")).1,
   (empty_accept_query_passes_header_unchanged.1 { payload := "p" } none).2
     (some "image/png") (by decide)⟩

/-- C10: every handler of the module is deterministic in its marshaling:
with the same delegated functions, equal parsed inputs give equal delegated
calls and equal results. -/
theorem handlers_deterministic :
    (∀ (α : Type) (cw : Text2ImgRequest → Option String → α) r₁ r₂ a₁ a₂ q₁ q₂,
      r₁ = r₂ → a₁ = a₂ → q₁ = q₂ →
      text2img_generation cw r₁ a₁ q₁ = text2img_generation cw r₂ a₂ q₂) ∧
    (∀ (α : Type) (cw : ImgUpscaleOrVaryRequest → Option String → α) i₁ i₂ r₁ r₂ a₁ a₂ q₁ q₂,
      i₁ = i₂ → r₁ = r₂ → a₁ = a₂ → q₁ = q₂ →
      img_upscale_or_vary cw i₁ r₁ a₁ q₁ = img_upscale_or_vary cw i₂ r₂ a₂ q₂) ∧
    (∀ (α : Type) (cw : ImgInpaintOrOutpaintRequest → Option String → α) i₁ i₂ r₁ r₂ a₁ a₂ q₁ q₂,
      i₁ = i₂ → r₁ = r₂ → a₁ = a₂ → q₁ = q₂ →
      img_inpaint_or_outpaint cw i₁ r₁ a₁ q₁ = img_inpaint_or_outpaint cw i₂ r₂ a₂ q₂) ∧
    (∀ (α : Type) (cw : ImgPromptRequest → Option String → α) i₁ i₂ r₁ r₂ a₁ a₂ q₁ q₂,
      i₁ = i₂ → r₁ = r₂ → a₁ = a₂ → q₁ = q₂ →
      img_prompt cw i₁ r₁ a₁ q₁ = img_prompt cw i₂ r₂ a₂ q₂) ∧
    (∀ (Img : Type) (photoI animeI : Img → String) (hwc3 : Img → Img)
      (read : UploadFile → Img) (img₁ img₂ : UploadFile) (t₁ t₂ : DescribeImageType),
      img₁ = img₂ → t₁ = t₂ →
      describe_image photoI animeI hwc3 read img₁ t₁ =
        describe_image photoI animeI hwc3 read img₂ t₂) ∧
    (∀ (F Mask : Type) (gmfi : List Nat → String → List (String × ExtraVal F) → Mask)
      (img₁ img₂ : UploadFile) (mm₁ mm₂ cc₁ cc₂ spt₁ spt₂ sm₁ sm₂ sq₁ sq₂ : String)
      (bt₁ bt₂ tt₁ tt₂ : F),
      img₁ = img₂ → mm₁ = mm₂ → cc₁ = cc₂ → spt₁ = spt₂ → sm₁ = sm₂ → sq₁ = sq₂ →
      bt₁ = bt₂ → tt₁ = tt₂ →
      generate_mask_route gmfi img₁ mm₁ cc₁ spt₁ sm₁ sq₁ bt₁ tt₁ =
        generate_mask_route gmfi img₂ mm₂ cc₂ spt₂ sm₂ sq₂ bt₂ tt₂) := by
  refine ⟨?_, ?_, ?_, ?_, ?_, ?_⟩ <;>
    · intros
      subst_vars
      rfl

/-- C10 witness: determinism applied at a concrete invocation of the
text-to-image handler. -/
theorem handlers_deterministic_witness :
    text2img_generation Prod.mk { payload := "p" } (some "hdr") none
      = text2img_generation Prod.mk { payload := "p" } (some "hdr") none :=
  handlers_deterministic.1 (Text2ImgRequest × Option String) Prod.mk
    { payload := "p" } { payload := "p" } (some "hdr") (some "hdr") none none rfl rfl rfl

end FooocusAPI
